import Mathlib

/-!
Shallow embedding of the LLDPatterns repository, which contains two
Adapter-pattern demonstrations:

* Principles/Adapter-Pattern/main.py — a unified data-access interface
  (DataStoreAdapter) with three concrete adapters: MySQLAdapter,
  MongoDBAdapter and S3Adapter.
* Structural/Adapter-Pattern/main.py — a unit-conversion adapter
  (TemperatureSensorAdapter) over a Fahrenheit temperature sensor.

Python methods are modelled as pure functions that take the adapter
instance together with the relevant external-store state and return the
instance as it stands at the end of the call, the updated store state and
the result; a raised exception is an Except.error.  The external store
clients (mysql.connector, pymongo, boto3) are not part of the repository;
their call surface is modelled from spec section 6 ("EXTERNAL
INTERFACES").
-/

/-- Python exception kinds arising on the modelled code paths. -/
inductive PyErr where
  | notImplementedError
  | attributeError
  | unicodeDecodeError
  | noSuchKey
  deriving DecidableEq

/-- Python run-time values, as far as the S3 payload is concerned: the
payload is dynamically typed, and only a str has an encode method. -/
inductive PyVal where
  | str (s : String)
  | int (n : Int)
  | pybytes (bs : List Nat)
  deriving DecidableEq

/-- Builds the unicode scalar value n as a Char when it is valid. -/
def mkChar (n : Nat) : Option Char :=
  if n.isValidChar then some (Char.ofNat n) else none

/-- UTF-8 encoding of one unicode scalar value as its byte sequence. -/
def utf8EncodeChar (c : Char) : List Nat :=
  let n := c.toNat
  if n < 0x80 then [n]
  else if n < 0x800 then [0xC0 + n / 64, 0x80 + n % 64]
  else if n < 0x10000 then [0xE0 + n / 4096, 0x80 + n / 64 % 64, 0x80 + n % 64]
  else [0xF0 + n / 262144, 0x80 + n / 4096 % 64, 0x80 + n / 64 % 64, 0x80 + n % 64]

/-- UTF-8 encoding of a list of unicode scalar values. -/
def utf8EncodeList : List Char → List Nat
  | [] => []
  | c :: cs => utf8EncodeChar c ++ utf8EncodeList cs

/-- UTF-8 encoding of a Python str payload; models the data.encode call
in S3Adapter.write_data and the spec's "encodes data as UTF-8 text". -/
def utf8Encode (s : String) : List Nat :=
  utf8EncodeList s.data

/-- State of the streaming UTF-8 decoder: the scalars decoded so far, the
partial scalar being assembled, the number of continuation bytes still
expected, and the smallest scalar the current sequence may legally encode
(for the overlong-encoding check). -/
structure Utf8State where
  acc : List Char
  pending : Nat
  need : Nat
  minv : Nat
  deriving DecidableEq

/-- Decoder state at a character boundary with output acc. -/
def utf8Clean (acc : List Char) : Utf8State :=
  ⟨acc, 0, 0, 0⟩

/-- Consumes one byte of UTF-8 input; none signals a decoding failure
(stray continuation byte, bad leading byte, overlong encoding, surrogate
or out-of-range scalar). -/
def utf8Step (st : Utf8State) (b : Nat) : Option Utf8State :=
  if st.need = 0 then
    if b < 0x80 then
      (mkChar b).map fun c => utf8Clean (st.acc ++ [c])
    else if b < 0xC0 then none
    else if b < 0xE0 then some ⟨st.acc, b - 0xC0, 1, 0x80⟩
    else if b < 0xF0 then some ⟨st.acc, b - 0xE0, 2, 0x800⟩
    else if b < 0xF8 then some ⟨st.acc, b - 0xF0, 3, 0x10000⟩
    else none
  else
    if 0x80 ≤ b ∧ b < 0xC0 then
      if st.need = 1 then
        if st.minv ≤ st.pending * 64 + (b - 0x80) then
          (mkChar (st.pending * 64 + (b - 0x80))).map fun c => utf8Clean (st.acc ++ [c])
        else none
      else some ⟨st.acc, st.pending * 64 + (b - 0x80), st.need - 1, st.minv⟩
    else none

/-- Runs the streaming decoder over a byte list. -/
def utf8Run (st : Utf8State) : List Nat → Option Utf8State
  | [] => some st
  | b :: rest =>
    match utf8Step st b with
    | some st1 => utf8Run st1 rest
    | none => none

/-- UTF-8 decoding of a byte sequence back to unicode scalar values;
models the strict bytes.decode call in S3Adapter.read_data: stray
continuation bytes, truncated sequences, overlong encodings, surrogates
and out-of-range scalars are all rejected. -/
def utf8Decode (bs : List Nat) : Option (List Char) :=
  match utf8Run (utf8Clean []) bs with
  | some st => if st.need = 0 then some st.acc else none
  | none => none

/-- Association-list lookup; leftmost binding wins. -/
def alookup {κ ν : Type} [DecidableEq κ] : List (κ × ν) → κ → Option ν
  | [], _ => none
  | (k, v) :: rest, key => if k = key then some v else alookup rest key

/-- Association-list overwrite: replaces the binding of key in place,
appending a fresh binding when none exists. -/
def aupsert {κ ν : Type} [DecidableEq κ] : List (κ × ν) → κ → ν → List (κ × ν)
  | [], key, v => [(key, v)]
  | (k, w) :: rest, key, v =>
    if k = key then (k, v) :: rest else (k, w) :: aupsert rest key v

/-- Appends one element at the end of the sequence bound to key in an
association list of sequences, creating the sequence when missing. -/
def aappendOne {κ ν : Type} [DecidableEq κ] : List (κ × List ν) → κ → ν → List (κ × List ν)
  | [], key, x => [(key, [x])]
  | (k, xs) :: rest, key, x =>
    if k = key then (k, xs ++ [x]) :: rest else (k, xs) :: aappendOne rest key x

/-- Lookup defaulting to the empty sequence. -/
def agetD {κ ν : Type} [DecidableEq κ] (m : List (κ × List ν)) (key : κ) : List ν :=
  (alookup m key).getD []

/-- Drops an exact leading segment from a list, yielding the remainder,
or none when the list does not start with that segment. -/
def dropPre {α : Type} [DecidableEq α] : List α → List α → Option (List α)
  | [], l => some l
  | _ :: _, [] => none
  | p :: ps, c :: cs => if p = c then dropPre ps cs else none

/-- Drops an exact trailing segment from a list, yielding the remainder. -/
def dropSuf {α : Type} [DecidableEq α] (s l : List α) : Option (List α) :=
  (dropPre s.reverse l.reverse).map List.reverse

/-- Statement text produced by the fixed part of the select f-string in
MySQLAdapter.read_data. -/
def selTxt : List Char := "SELECT * FROM ".data

/-- Statement text before the interpolated table name in the insert
f-string of MySQLAdapter.write_data. -/
def insTxtL : List Char := "INSERT INTO ".data

/-- Statement text after the interpolated table name in the insert
f-string of MySQLAdapter.write_data, with its three placeholders. -/
def insTxtR : List Char := " VALUES (%s, %s, %s)".data

/-- Counts occurrences of the two-character placeholder marker in a
statement text. -/
def countPS : List Char → Nat
  | '%' :: 's' :: rest => 1 + countPS rest
  | _ :: rest => countPS rest
  | [] => 0

/-- Rows of the relational model are tuples of column values of a
parameter type.  A database maps table-name text to its rows. -/
abbrev MySQLDB (α : Type) := List (List Char × List (List α))

/-- Session state of the relational store client: the last committed
database contents and the working contents the session sees.  Modelled
from spec section 6 (connect, session.execute, session.commit). -/
structure MySQLSession (α : Type) where
  committed : MySQLDB α
  working : MySQLDB α
  deriving DecidableEq

/-- One call on the relational store client's session or cursor: a
statement execution with an optional parameter tuple, a commit, or a
rollback. -/
inductive SQLOp (α : Type) where
  | execute (stmt : List Char) (params : Option (List α))
  | commit
  | rollback
  deriving DecidableEq

/-- Modelled from the spec: the external relational store client (spec
section 6) on the two call shapes the adapter emits.  An unparameterized
call is a "select all" of the table named verbatim after the select
keyword text, returning every row of that table; a parameterized call is
a single-row insert that binds the parameter tuple to the three
placeholders of the statement, failing on any other arity. -/
def mysqlExec {α : Type} (w : MySQLDB α) (stmt : List Char) (params : Option (List α)) :
    Option (MySQLDB α × List (List α)) :=
  match params with
  | none => (dropPre selTxt stmt).map fun t => (w, agetD w t)
  | some vals =>
    match dropPre insTxtL stmt with
    | some r =>
      match dropSuf insTxtR r with
      | some t => if vals.length = 3 then some (aappendOne w t vals, []) else none
      | none => none
    | none => none

/-- Effect of one store-client call on the session state, together with
the rows the cursor then holds. -/
def sqlStep {α : Type} (s : MySQLSession α) : SQLOp α → Option (MySQLSession α × List (List α))
  | .execute stmt params =>
    match mysqlExec s.working stmt params with
    | some (w1, rows) => some (⟨s.committed, w1⟩, rows)
    | none => none
  | .commit => some (⟨s.working, s.working⟩, [])
  | .rollback => some (⟨s.committed, s.committed⟩, [])

/-- Instance state of MySQLAdapter: the connection and cursor handles
created in __init__, opaque driver handles in this model. -/
structure MySQLAdapter where
  connection : Nat
  cursor : Nat
  deriving DecidableEq

/-- Statement text of the f-string in MySQLAdapter.read_data, with the
table name interpolated verbatim. -/
def MySQLAdapter.readStmt (table_name : String) : List Char :=
  selTxt ++ table_name.data

/-- Statement text of the f-string in MySQLAdapter.write_data, with the
table name interpolated verbatim. -/
def MySQLAdapter.writeStmt (table_name : String) : List Char :=
  insTxtL ++ table_name.data ++ insTxtR

/-- Trace of store-client calls issued by MySQLAdapter.read_data. -/
def MySQLAdapter.readOps (α : Type) (table_name : String) : List (SQLOp α) :=
  [.execute (MySQLAdapter.readStmt table_name) none]

/-- Trace of store-client calls issued by MySQLAdapter.write_data. -/
def MySQLAdapter.writeOps {α : Type} (table_name : String) (data : List α) : List (SQLOp α) :=
  [.execute (MySQLAdapter.writeStmt table_name) (some data), .commit]

/-- Translated from MySQLAdapter.read_data: self.cursor.execute of the
interpolated select text with no parameters, then cursor.fetchall as the
result. -/
def MySQLAdapter.read_data {α : Type} (self : MySQLAdapter) (s : MySQLSession α)
    (table_name : String) : Option (MySQLAdapter × MySQLSession α × List (List α)) :=
  match sqlStep s (.execute (MySQLAdapter.readStmt table_name) none) with
  | some (s1, rows) => some (self, s1, rows)
  | none => none

/-- Translated from MySQLAdapter.write_data: self.cursor.execute of the
parameterized insert text with data bound, then self.connection.commit. -/
def MySQLAdapter.write_data {α : Type} (self : MySQLAdapter) (s : MySQLSession α)
    (table_name : String) (data : List α) : Option (MySQLAdapter × MySQLSession α) :=
  match sqlStep s (.execute (MySQLAdapter.writeStmt table_name) (some data)) with
  | some (s1, _) =>
    match sqlStep s1 SQLOp.commit with
    | some (s2, _) => some (self, s2)
    | none => none
  | none => none

/-- Documents of the document-store model are field-value mappings over a
parameter value type. -/
abbrev MongoDoc (μ : Type) := List (String × μ)

/-- Contents of the document store: collection name to its documents, in
insertion order. -/
abbrev MongoDatabase (μ : Type) := List (String × List (MongoDoc μ))

/-- Modelled from the spec: collection.find(filter) of the external
document store client returns the documents matching every field
constraint of the filter, in order; find({}) carries no constraint. -/
def mongoFind {μ : Type} [DecidableEq μ] (docs : List (MongoDoc μ))
    (filter : List (String × μ)) : List (MongoDoc μ) :=
  docs.filter fun d => filter.all fun kv => decide (alookup d kv.1 = some kv.2)

/-- Modelled from the spec: collection.insert_one(document) of the
external document store client appends the one document to the named
collection. -/
def mongoInsertOne {μ : Type} (store : MongoDatabase μ) (collection_name : String)
    (d : MongoDoc μ) : MongoDatabase μ :=
  aappendOne store collection_name d

/-- Instance state of MongoDBAdapter: the client handle and the cached
database handle created in __init__ (the handle is the database name in
this model). -/
structure MongoDBAdapter where
  client : Nat
  db : String
  deriving DecidableEq

/-- Translated from MongoDBAdapter.read_data: collection =
self.db[collection_name]; return list(collection.find({})). -/
def MongoDBAdapter.read_data {μ : Type} [DecidableEq μ] (self : MongoDBAdapter)
    (store : MongoDatabase μ) (collection_name : String) :
    MongoDBAdapter × MongoDatabase μ × List (MongoDoc μ) :=
  (self, store, mongoFind (agetD store collection_name) [])

/-- Translated from MongoDBAdapter.write_data: collection =
self.db[collection_name]; collection.insert_one(data). -/
def MongoDBAdapter.write_data {μ : Type} (self : MongoDBAdapter) (store : MongoDatabase μ)
    (collection_name : String) (data : MongoDoc μ) : MongoDBAdapter × MongoDatabase μ :=
  (self, mongoInsertOne store collection_name data)

/-- Contents of the object-storage bucket: object key to stored bytes. -/
abbrev S3BucketState := List (String × List Nat)

/-- Instance state of S3Adapter: the service resource handle and the
bucket handle created in __init__ (the bucket handle is the bucket name
in this model). -/
structure S3Adapter where
  s3 : Nat
  bucket : String
  deriving DecidableEq

/-- Modelled from the spec: bucket.Object(key).get()['Body'].read() of
the external object-storage client returns the stored bytes, failing
when the object does not exist. -/
def s3GetBytes (b : S3BucketState) (key : String) : Except PyErr (List Nat) :=
  match alookup b key with
  | some bs => .ok bs
  | none => .error .noSuchKey

/-- Modelled from the spec: bucket.Object(key).put(Body=bytes) of the
external object-storage client overwrites the named object in full. -/
def s3PutBytes (b : S3BucketState) (key : String) (bs : List Nat) : S3BucketState :=
  aupsert b key bs

/-- Python attribute dispatch of data.encode('utf-8') in
S3Adapter.write_data: only a str has the encode method; any other
payload raises before the store is contacted. -/
def pyEncodeUtf8 : PyVal → Except PyErr (List Nat)
  | .str s => .ok (utf8Encode s)
  | _ => .error .attributeError

/-- Python bytes.decode('utf-8') in S3Adapter.read_data: raises
UnicodeDecodeError on bytes that are not valid UTF-8. -/
def pyDecodeUtf8 (bs : List Nat) : Except PyErr String :=
  match utf8Decode bs with
  | some cs => .ok (String.mk cs)
  | none => .error .unicodeDecodeError

/-- Translated from S3Adapter.read_data: obj =
self.bucket.Object(file_name); return
obj.get()['Body'].read().decode('utf-8'). -/
def S3Adapter.read_data (self : S3Adapter) (b : S3BucketState) (file_name : String) :
    Except PyErr (S3Adapter × S3BucketState × String) :=
  match s3GetBytes b file_name with
  | .ok bs =>
    match pyDecodeUtf8 bs with
    | .ok s => .ok (self, b, s)
    | .error e => .error e
  | .error e => .error e

/-- Translated from S3Adapter.write_data: obj =
self.bucket.Object(file_name); obj.put(Body=data.encode('utf-8')). -/
def S3Adapter.write_data (self : S3Adapter) (b : S3BucketState) (file_name : String)
    (data : PyVal) : Except PyErr (S3Adapter × S3BucketState) :=
  match pyEncodeUtf8 data with
  | .ok bs => .ok (self, s3PutBytes b file_name bs)
  | .error e => .error e

/-- Bucket contents the caller observes after a write attempt: the new
contents on success, the old contents when the call raised (the model
contacts the store only on the success path, as the source encodes
before calling put). -/
def s3BucketAfterWrite (self : S3Adapter) (b : S3BucketState) (file_name : String)
    (data : PyVal) : S3BucketState :=
  match S3Adapter.write_data self b file_name data with
  | .ok r => r.2
  | .error _ => b

/-- Translated from DataStoreAdapter.read_data: raise NotImplementedError.
This is the method body every concrete adapter that does not override
read_data inherits, whatever the identifier and intended result type. -/
def DataStoreAdapter.read_data {ι : Type} (ρ : Type) (identifier : ι) : Except PyErr ρ :=
  .error .notImplementedError

/-- Translated from DataStoreAdapter.write_data: raise
NotImplementedError. -/
def DataStoreAdapter.write_data {ι δ : Type} (identifier : ι) (data : δ) : Except PyErr Unit :=
  .error .notImplementedError

/-- Translated from CelsiusTemperatureSensor.  Temperatures are modelled
as rationals: exact arithmetic for the Python numeric expressions
involved here. -/
structure CelsiusTemperatureSensor where
  temperature : ℚ
  deriving DecidableEq

/-- Translated from CelsiusTemperatureSensor.get_temperature: returns
self.temperature; the instance is returned unchanged alongside. -/
def CelsiusTemperatureSensor.get_temperature (self : CelsiusTemperatureSensor) :
    CelsiusTemperatureSensor × ℚ :=
  (self, self.temperature)

/-- Translated from FahrenheitTemperatureSensor. -/
structure FahrenheitTemperatureSensor where
  temperature : ℚ
  deriving DecidableEq

/-- Translated from FahrenheitTemperatureSensor.get_temperature: returns
self.temperature; the instance is returned unchanged alongside. -/
def FahrenheitTemperatureSensor.get_temperature (self : FahrenheitTemperatureSensor) :
    FahrenheitTemperatureSensor × ℚ :=
  (self, self.temperature)

/-- Instance state of TemperatureSensorAdapter: the wrapped Fahrenheit
sensor stored in __init__. -/
structure TemperatureSensorAdapter where
  fahrenheit_sensor : FahrenheitTemperatureSensor
  deriving DecidableEq

/-- Translated from TemperatureSensorAdapter.get_temperature: reads the
wrapped sensor's current value on this very call and converts it via
(F - 32) * 5 / 9. -/
def TemperatureSensorAdapter.get_temperature (self : TemperatureSensorAdapter) :
    TemperatureSensorAdapter × ℚ :=
  let r := self.fahrenheit_sensor.get_temperature
  ({ self with fahrenheit_sensor := r.1 }, (r.2 - 32) * 5 / 9)

/-- MySQLAdapter.read_data rephrased over an abstract store-client cursor
whose calls may fail: the body issues cursor.execute on the interpolated
select text and then returns cursor.fetchall, with no exception handling
of its own. -/
def MySQLAdapter.read_dataWith {α ε : Type}
    (execute : List Char → Option (List α) → Except ε Unit)
    (fetchall : Unit → Except ε (List (List α)))
    (table_name : String) : Except ε (List (List α)) := do
  execute (MySQLAdapter.readStmt table_name) none
  fetchall ()

/-- MySQLAdapter.write_data rephrased over an abstract store client:
cursor.execute on the parameterized insert, then connection.commit, with
no exception handling of its own. -/
def MySQLAdapter.write_dataWith {α ε : Type}
    (execute : List Char → Option (List α) → Except ε Unit)
    (commit : Unit → Except ε Unit)
    (table_name : String) (data : List α) : Except ε Unit := do
  execute (MySQLAdapter.writeStmt table_name) (some data)
  commit ()

/-- MongoDBAdapter.read_data rephrased over an abstract store client:
one collection.find({}) call, with no exception handling of its own. -/
def MongoDBAdapter.read_dataWith {μ ε : Type}
    (find : String → List (String × μ) → Except ε (List (MongoDoc μ)))
    (collection_name : String) : Except ε (List (MongoDoc μ)) :=
  find collection_name []

/-- MongoDBAdapter.write_data rephrased over an abstract store client:
one collection.insert_one(data) call, with no exception handling of its
own. -/
def MongoDBAdapter.write_dataWith {μ ε : Type}
    (insert_one : String → MongoDoc μ → Except ε Unit)
    (collection_name : String) (data : MongoDoc μ) : Except ε Unit :=
  insert_one collection_name data

/-- S3Adapter.read_data rephrased over an abstract store client: the
object get, then the decode of its body, with no exception handling of
its own. -/
def S3Adapter.read_dataWith {ε : Type}
    (get : String → Except ε (List Nat))
    (decode : List Nat → Except ε String)
    (file_name : String) : Except ε String := do
  let bs ← get file_name
  decode bs

/-- S3Adapter.write_data rephrased over an abstract store client: the
encode of the payload, then the object put, with no exception handling
of its own. -/
def S3Adapter.write_dataWith {ε : Type}
    (encode : PyVal → Except ε (List Nat))
    (put : String → List Nat → Except ε Unit)
    (file_name : String) (data : PyVal) : Except ε Unit := do
  let bs ← encode data
  put file_name bs

theorem mkChar_toNat (c : Char) : mkChar c.toNat = some c := by
  have h : c.toNat.isValidChar := c.valid
  simp [mkChar, h]

theorem utf8Run_append (st : Utf8State) (l1 l2 : List Nat) :
    utf8Run st (l1 ++ l2) =
      match utf8Run st l1 with
      | some st1 => utf8Run st1 l2
      | none => none := by
  induction l1 generalizing st with
  | nil => simp [utf8Run]
  | cons b rest ih =>
    rw [List.cons_append, utf8Run, utf8Run]
    cases h : utf8Step st b with
    | none => rfl
    | some st1 => exact ih st1

theorem utf8Run_encodeChar (acc : List Char) (c : Char) :
    utf8Run (utf8Clean acc) (utf8EncodeChar c) = some (utf8Clean (acc ++ [c])) := by
  have hv : c.toNat.isValidChar := c.valid
  have hlt : c.toNat < 0x110000 := by
    rcases hv with h | ⟨_, h⟩ <;> omega
  by_cases h1 : c.toNat < 0x80
  · have e : utf8EncodeChar c = [c.toNat] := by
      simp only [utf8EncodeChar]
      rw [if_pos h1]
    have s1 : utf8Step (utf8Clean acc) c.toNat = some (utf8Clean (acc ++ [c])) := by
      simp [utf8Step, utf8Clean, h1, mkChar_toNat]
    rw [e]
    simp [utf8Run, s1]
  · by_cases h2 : c.toNat < 0x800
    · have e : utf8EncodeChar c = [0xC0 + c.toNat / 64, 0x80 + c.toNat % 64] := by
        simp only [utf8EncodeChar]
        rw [if_neg h1, if_pos h2]
      have s1 : utf8Step (utf8Clean acc) (0xC0 + c.toNat / 64) =
          some ⟨acc, c.toNat / 64, 1, 0x80⟩ := by
        have n1 : ¬ (0xC0 + c.toNat / 64 < 0x80) := by omega
        have n2 : ¬ (0xC0 + c.toNat / 64 < 0xC0) := by omega
        have n3 : 0xC0 + c.toNat / 64 < 0xE0 := by omega
        have n4 : 0xC0 + c.toNat / 64 - 0xC0 = c.toNat / 64 := by omega
        simp [utf8Step, utf8Clean, n1, n2, n3, n4]
      have s2 : utf8Step ⟨acc, c.toNat / 64, 1, 0x80⟩ (0x80 + c.toNat % 64) =
          some (utf8Clean (acc ++ [c])) := by
        have n1 : 0x80 ≤ 0x80 + c.toNat % 64 ∧ 0x80 + c.toNat % 64 < 0xC0 := by omega
        have n2 : c.toNat / 64 * 64 + c.toNat % 64 = c.toNat := by omega
        have n3 : (0x80 : Nat) ≤ c.toNat := by omega
        simp [utf8Step, n1, n2, n3, mkChar_toNat]
      rw [e]
      simp [utf8Run, s1, s2]
    · by_cases h3 : c.toNat < 0x10000
      · have e : utf8EncodeChar c =
            [0xE0 + c.toNat / 4096, 0x80 + c.toNat / 64 % 64, 0x80 + c.toNat % 64] := by
          simp only [utf8EncodeChar]
          rw [if_neg h1, if_neg h2, if_pos h3]
        have s1 : utf8Step (utf8Clean acc) (0xE0 + c.toNat / 4096) =
            some ⟨acc, c.toNat / 4096, 2, 0x800⟩ := by
          have n1 : ¬ (0xE0 + c.toNat / 4096 < 0x80) := by omega
          have n2 : ¬ (0xE0 + c.toNat / 4096 < 0xC0) := by omega
          have n3 : ¬ (0xE0 + c.toNat / 4096 < 0xE0) := by omega
          have n4 : 0xE0 + c.toNat / 4096 < 0xF0 := by omega
          have n5 : 0xE0 + c.toNat / 4096 - 0xE0 = c.toNat / 4096 := by omega
          simp [utf8Step, utf8Clean, n1, n2, n3, n4, n5]
        have s2 : utf8Step ⟨acc, c.toNat / 4096, 2, 0x800⟩ (0x80 + c.toNat / 64 % 64) =
            some ⟨acc, c.toNat / 64, 1, 0x800⟩ := by
          have n1 : 0x80 ≤ 0x80 + c.toNat / 64 % 64 ∧ 0x80 + c.toNat / 64 % 64 < 0xC0 := by
            omega
          have n2 : c.toNat / 4096 * 64 + c.toNat / 64 % 64 = c.toNat / 64 := by
            omega
          simp [utf8Step, n1, n2]
        have s3 : utf8Step ⟨acc, c.toNat / 64, 1, 0x800⟩ (0x80 + c.toNat % 64) =
            some (utf8Clean (acc ++ [c])) := by
          have n1 : 0x80 ≤ 0x80 + c.toNat % 64 ∧ 0x80 + c.toNat % 64 < 0xC0 := by omega
          have n2 : c.toNat / 64 * 64 + c.toNat % 64 = c.toNat := by omega
          have n3 : (0x800 : Nat) ≤ c.toNat := by omega
          simp [utf8Step, n1, n2, n3, mkChar_toNat]
        rw [e]
        simp [utf8Run, s1, s2, s3]
      · have e : utf8EncodeChar c =
            [0xF0 + c.toNat / 262144, 0x80 + c.toNat / 4096 % 64,
             0x80 + c.toNat / 64 % 64, 0x80 + c.toNat % 64] := by
          simp only [utf8EncodeChar]
          rw [if_neg h1, if_neg h2, if_neg h3]
        have s1 : utf8Step (utf8Clean acc) (0xF0 + c.toNat / 262144) =
            some ⟨acc, c.toNat / 262144, 3, 0x10000⟩ := by
          have n1 : ¬ (0xF0 + c.toNat / 262144 < 0x80) := by omega
          have n2 : ¬ (0xF0 + c.toNat / 262144 < 0xC0) := by omega
          have n3 : ¬ (0xF0 + c.toNat / 262144 < 0xE0) := by omega
          have n4 : ¬ (0xF0 + c.toNat / 262144 < 0xF0) := by omega
          have n5 : 0xF0 + c.toNat / 262144 < 0xF8 := by omega
          have n6 : 0xF0 + c.toNat / 262144 - 0xF0 = c.toNat / 262144 := by omega
          simp [utf8Step, utf8Clean, n1, n2, n3, n4, n5, n6]
        have s2 : utf8Step ⟨acc, c.toNat / 262144, 3, 0x10000⟩ (0x80 + c.toNat / 4096 % 64) =
            some ⟨acc, c.toNat / 4096, 2, 0x10000⟩ := by
          have n1 : 0x80 ≤ 0x80 + c.toNat / 4096 % 64 ∧ 0x80 + c.toNat / 4096 % 64 < 0xC0 := by
            omega
          have n2 : c.toNat / 262144 * 64 + c.toNat / 4096 % 64 = c.toNat / 4096 := by omega
          simp [utf8Step, n1, n2]
        have s3 : utf8Step ⟨acc, c.toNat / 4096, 2, 0x10000⟩ (0x80 + c.toNat / 64 % 64) =
            some ⟨acc, c.toNat / 64, 1, 0x10000⟩ := by
          have n1 : 0x80 ≤ 0x80 + c.toNat / 64 % 64 ∧ 0x80 + c.toNat / 64 % 64 < 0xC0 := by
            omega
          have n2 : c.toNat / 4096 * 64 + c.toNat / 64 % 64 = c.toNat / 64 := by
            omega
          simp [utf8Step, n1, n2]
        have s4 : utf8Step ⟨acc, c.toNat / 64, 1, 0x10000⟩ (0x80 + c.toNat % 64) =
            some (utf8Clean (acc ++ [c])) := by
          have n1 : 0x80 ≤ 0x80 + c.toNat % 64 ∧ 0x80 + c.toNat % 64 < 0xC0 := by omega
          have n2 : c.toNat / 64 * 64 + c.toNat % 64 = c.toNat := by omega
          have n3 : (0x10000 : Nat) ≤ c.toNat := by omega
          simp [utf8Step, n1, n2, n3, mkChar_toNat]
        rw [e]
        simp [utf8Run, s1, s2, s3, s4]

theorem utf8Run_encodeList (acc : List Char) (l : List Char) :
    utf8Run (utf8Clean acc) (utf8EncodeList l) = some (utf8Clean (acc ++ l)) := by
  induction l generalizing acc with
  | nil => simp [utf8EncodeList, utf8Run]
  | cons c cs ih =>
    rw [utf8EncodeList, utf8Run_append, utf8Run_encodeChar]
    simp only
    rw [ih (acc ++ [c]), List.append_assoc]
    rfl

/-- Round trip: UTF-8 encode then decode is the identity on any text. -/
theorem utf8Decode_encode (s : String) : utf8Decode (utf8Encode s) = some s.data := by
  rw [utf8Decode, utf8Encode, utf8Run_encodeList]
  simp [utf8Clean]

theorem alookup_aupsert {κ ν : Type} [DecidableEq κ] (m : List (κ × ν)) (key : κ) (v : ν) :
    alookup (aupsert m key v) key = some v := by
  induction m with
  | nil => simp [aupsert, alookup]
  | cons p rest ih =>
    obtain ⟨k, w⟩ := p
    by_cases h : k = key
    · simp [aupsert, alookup, h]
    · simp [aupsert, alookup, h, ih]

theorem aupsert_idem {κ ν : Type} [DecidableEq κ] (m : List (κ × ν)) (key : κ) (v : ν) :
    aupsert (aupsert m key v) key v = aupsert m key v := by
  induction m with
  | nil => simp [aupsert]
  | cons p rest ih =>
    obtain ⟨k, w⟩ := p
    by_cases h : k = key
    · simp [aupsert, h]
    · simp [aupsert, h, ih]

theorem agetD_aappendOne {κ ν : Type} [DecidableEq κ] (m : List (κ × List ν)) (key : κ) (x : ν) :
    agetD (aappendOne m key x) key = agetD m key ++ [x] := by
  induction m with
  | nil => simp [aappendOne, agetD, alookup]
  | cons p rest ih =>
    obtain ⟨k, xs⟩ := p
    by_cases h : k = key
    · simp [aappendOne, agetD, alookup, h]
    · simp [aappendOne, agetD, alookup, h]
      exact ih

theorem dropPre_append {α : Type} [DecidableEq α] (p l : List α) :
    dropPre p (p ++ l) = some l := by
  induction p with
  | nil => simp [dropPre]
  | cons x xs ih => simp [dropPre, ih]

theorem dropSuf_append {α : Type} [DecidableEq α] (s l : List α) :
    dropSuf s (l ++ s) = some l := by
  rw [dropSuf, List.reverse_append, dropPre_append]
  simp

theorem mysqlExec_read {α : Type} (w : MySQLDB α) (t : String) :
    mysqlExec w (MySQLAdapter.readStmt t) none = some (w, agetD w t.data) := by
  simp [mysqlExec, MySQLAdapter.readStmt, dropPre_append]

theorem mysqlExec_write {α : Type} (w : MySQLDB α) (t : String) (d : List α) :
    mysqlExec w (MySQLAdapter.writeStmt t) (some d) =
      if d.length = 3 then some (aappendOne w t.data d, []) else none := by
  simp [mysqlExec, MySQLAdapter.writeStmt, List.append_assoc, dropPre_append, dropSuf_append]

theorem mysql_read_run {α : Type} (self : MySQLAdapter) (s : MySQLSession α) (t : String) :
    MySQLAdapter.read_data self s t = some (self, s, agetD s.working t.data) := by
  obtain ⟨cm, w⟩ := s
  simp [MySQLAdapter.read_data, sqlStep, mysqlExec_read]

theorem mysql_write_run {α : Type} (self : MySQLAdapter) (s : MySQLSession α) (t : String)
    (d : List α) (h : d.length = 3) :
    MySQLAdapter.write_data self s t d =
      some (self, ⟨aappendOne s.working t.data d, aappendOne s.working t.data d⟩) := by
  obtain ⟨cm, w⟩ := s
  simp [MySQLAdapter.write_data, sqlStep, mysqlExec_write, h]

theorem mysql_write_badarity {α : Type} (self : MySQLAdapter) (s : MySQLSession α)
    (t : String) (d : List α) (h : ¬ d.length = 3) :
    MySQLAdapter.write_data self s t d = none := by
  simp [MySQLAdapter.write_data, sqlStep, mysqlExec_write, h]

theorem mongoFind_nil {μ : Type} [DecidableEq μ] (docs : List (MongoDoc μ)) :
    mongoFind docs [] = docs := by
  simp [mongoFind]

/-- C2: TemperatureSensorAdapter.get_temperature recomputes
(F - 32) * 5 / 9 from the wrapped sensor's current reading on every call
with no caching, leaving the wrapped sensor as it was; a sensor
reporting 77 gives exactly 25 and one reporting 32 gives exactly 0. -/
theorem claim_C2_fahrenheit_conversion :
    (∀ a : TemperatureSensorAdapter,
      a.get_temperature = (a, (a.fahrenheit_sensor.temperature - 32) * 5 / 9)) ∧
    (TemperatureSensorAdapter.mk ⟨77⟩).get_temperature.2 = 25 ∧
    (TemperatureSensorAdapter.mk ⟨32⟩).get_temperature.2 = 0 := by
  refine ⟨fun a => rfl, ?_, ?_⟩
  · show ((77 : ℚ) - 32) * 5 / 9 = 25
    norm_num
  · show ((32 : ℚ) - 32) * 5 / 9 = 0
    norm_num

/-- C3: calling read_data or write_data on the abstract DataStoreAdapter
contract itself, the method body every adapter that does not override
them inherits, signals NotImplementedError for every identifier and
every data argument. -/
theorem claim_C3_abstract_not_implemented (ι ρ δ : Type) (identifier : ι) (data : δ) :
    DataStoreAdapter.read_data ρ identifier = Except.error PyErr.notImplementedError ∧
    DataStoreAdapter.write_data identifier data = Except.error PyErr.notImplementedError :=
  ⟨rfl, rfl⟩

/-- C5: MySQLAdapter.write_data issues exactly one parameterized
single-row insert whose fixed VALUES clause holds exactly three
placeholders bound from data, immediately followed by one commit and by
nothing else (in particular no rollback); the call succeeds exactly for
three-element payloads, and on success the committed contents coincide
with the working contents with the one row appended. -/
theorem claim_C5_write_single_insert_commit (α : Type) (self : MySQLAdapter)
    (s : MySQLSession α) (t : String) (d : List α) :
    MySQLAdapter.writeOps t d =
      [SQLOp.execute (insTxtL ++ t.data ++ insTxtR) (some d), SQLOp.commit] ∧
    insTxtL = "INSERT INTO ".data ∧ insTxtR = " VALUES (%s, %s, %s)".data ∧
    countPS insTxtR = 3 ∧
    ((MySQLAdapter.write_data self s t d).isSome ↔ d.length = 3) ∧
    (d.length = 3 →
      MySQLAdapter.write_data self s t d =
        some (self, ⟨aappendOne s.working t.data d, aappendOne s.working t.data d⟩)) := by
  refine ⟨rfl, rfl, rfl, by decide, ⟨?_, ?_⟩, mysql_write_run self s t d⟩
  · intro h
    by_contra hne
    rw [mysql_write_badarity self s t d hne] at h
    simp at h
  · intro h
    rw [mysql_write_run self s t d h]
    simp

theorem claim_C5_write_single_insert_commit_witness :
    MySQLAdapter.write_data (⟨0, 0⟩ : MySQLAdapter) (⟨[], []⟩ : MySQLSession Nat) "t"
        [1, 2, 3] =
      some (⟨0, 0⟩, ⟨aappendOne [] "t".data [1, 2, 3], aappendOne [] "t".data [1, 2, 3]⟩) :=
  (claim_C5_write_single_insert_commit Nat ⟨0, 0⟩ ⟨[], []⟩ "t" [1, 2, 3]).2.2.2.2.2 rfl

/-- C6: MySQLAdapter.read_data issues exactly one unparameterized
statement whose text is exactly "SELECT * FROM " followed by the table
name verbatim, with no parameterization, quoting or validation of any
kind, and returns all rows fetched for that table; it succeeds for every
table-name string. -/
theorem claim_C6_select_verbatim (α : Type) (self : MySQLAdapter) (s : MySQLSession α)
    (t : String) :
    MySQLAdapter.readOps α t = [SQLOp.execute (selTxt ++ t.data) none] ∧
    selTxt = "SELECT * FROM ".data ∧
    MySQLAdapter.read_data self s t = some (self, s, agetD s.working t.data) :=
  ⟨rfl, rfl, mysql_read_run self s t⟩

/-- C7: MongoDBAdapter.read_data returns every document currently in the
named collection, fully materialized as a list, with no filter,
projection or truncation: exactly the documents the store holds for that
collection. -/
theorem claim_C7_read_all_documents (μ : Type) [DecidableEq μ] (self : MongoDBAdapter)
    (store : MongoDatabase μ) (collection_name : String) :
    MongoDBAdapter.read_data self store collection_name =
      (self, store, agetD store collection_name) := by
  simp [MongoDBAdapter.read_data, mongoFind_nil]

/-- C1: writing then reading against the same store returns data
consistent with the payload on every adapter variant, for a correctly
shaped payload: the relational read includes the inserted row, the
document read includes the inserted document, and the object-storage
read returns exactly the text written, UTF-8 encode then decode being
the identity on the stored text. -/
theorem claim_C1_write_read_round_trip (α μ : Type) [DecidableEq μ]
    (my : MySQLAdapter) (s : MySQLSession α) (t : String) (d : List α)
    (mo : MongoDBAdapter) (store : MongoDatabase μ) (c : String) (doc : MongoDoc μ)
    (s3a : S3Adapter) (b : S3BucketState) (k : String) (txt : String) :
    (d.length = 3 → ∀ my1 s1, MySQLAdapter.write_data my s t d = some (my1, s1) →
      ∃ rows, MySQLAdapter.read_data my1 s1 t = some (my1, s1, rows) ∧ d ∈ rows) ∧
    (∀ mo1 store1, MongoDBAdapter.write_data mo store c doc = (mo1, store1) →
      ∃ docs, MongoDBAdapter.read_data mo1 store1 c = (mo1, store1, docs) ∧ doc ∈ docs) ∧
    (∀ s3b buck, S3Adapter.write_data s3a b k (PyVal.str txt) = Except.ok (s3b, buck) →
      S3Adapter.read_data s3b buck k = Except.ok (s3b, buck, txt)) := by
  refine ⟨?_, ?_, ?_⟩
  · intro hd my1 s1 hw
    rw [mysql_write_run my s t d hd] at hw
    simp only [Option.some.injEq, Prod.mk.injEq] at hw
    obtain ⟨h1, h2⟩ := hw
    subst h1
    subst h2
    refine ⟨agetD (aappendOne s.working t.data d) t.data, mysql_read_run _ _ _, ?_⟩
    rw [agetD_aappendOne]
    simp
  · intro mo1 store1 hw
    simp only [MongoDBAdapter.write_data, Prod.mk.injEq] at hw
    obtain ⟨h1, h2⟩ := hw
    subst h1
    subst h2
    refine ⟨agetD (mongoInsertOne store c doc) c, ?_, ?_⟩
    · simp [MongoDBAdapter.read_data, mongoFind_nil]
    · rw [mongoInsertOne, agetD_aappendOne]
      simp
  · intro s3b buck hw
    simp only [S3Adapter.write_data, pyEncodeUtf8, Except.ok.injEq, Prod.mk.injEq] at hw
    obtain ⟨h1, h2⟩ := hw
    subst h1
    subst h2
    simp [S3Adapter.read_data, s3GetBytes, s3PutBytes, alookup_aupsert, pyDecodeUtf8,
      utf8Decode_encode]

theorem claim_C1_write_read_round_trip_witness :
    (∃ rows, MySQLAdapter.read_data (⟨0, 0⟩ : MySQLAdapter)
        ⟨aappendOne [] "t".data [1, 2, 3], aappendOne [] "t".data [1, 2, 3]⟩ "t" =
        some (⟨0, 0⟩, ⟨aappendOne [] "t".data [1, 2, 3], aappendOne [] "t".data [1, 2, 3]⟩,
          rows) ∧ [1, 2, 3] ∈ rows) ∧
    (∃ docs, MongoDBAdapter.read_data (⟨0, "db"⟩ : MongoDBAdapter)
        (mongoInsertOne [] "c" [("x", 1)]) "c" =
        (⟨0, "db"⟩, mongoInsertOne [] "c" [("x", (1 : Nat))], docs) ∧
      [("x", (1 : Nat))] ∈ docs) ∧
    S3Adapter.read_data (⟨0, "bkt"⟩ : S3Adapter)
        (s3PutBytes [] "f.txt" (utf8Encode "hello")) "f.txt" =
      Except.ok (⟨0, "bkt"⟩, s3PutBytes [] "f.txt" (utf8Encode "hello"), "hello") := by
  have h := claim_C1_write_read_round_trip Nat Nat ⟨0, 0⟩ ⟨[], []⟩ "t" [1, 2, 3]
    ⟨0, "db"⟩ [] "c" [("x", 1)] ⟨0, "bkt"⟩ [] "f.txt" "hello"
  exact ⟨h.1 rfl _ _ (mysql_write_run ⟨0, 0⟩ ⟨[], []⟩ "t" [1, 2, 3] rfl),
    h.2.1 _ _ rfl, h.2.2 _ _ rfl⟩

/-- C4: repeated identical writes overwrite to the same final state on
the object-storage variant, while on the relational and document
variants a repeated write of a correctly shaped payload appends a
duplicate row or document and therefore ends in a different final
state. -/
theorem claim_C4_write_idempotence (α μ : Type) [DecidableEq μ]
    (s3a : S3Adapter) (b : S3BucketState) (k txt : String)
    (my : MySQLAdapter) (s : MySQLSession α) (t : String) (d : List α)
    (mo : MongoDBAdapter) (store : MongoDatabase μ) (c : String) (doc : MongoDoc μ) :
    (∀ r1 r2, S3Adapter.write_data s3a b k (PyVal.str txt) = Except.ok r1 →
      S3Adapter.write_data r1.1 r1.2 k (PyVal.str txt) = Except.ok r2 → r2.2 = r1.2) ∧
    (d.length = 3 → ∀ r1 r2, MySQLAdapter.write_data my s t d = some r1 →
      MySQLAdapter.write_data r1.1 r1.2 t d = some r2 →
      r2.2 ≠ r1.2 ∧ agetD r2.2.working t.data = agetD s.working t.data ++ [d, d]) ∧
    ((MongoDBAdapter.write_data (MongoDBAdapter.write_data mo store c doc).1
        (MongoDBAdapter.write_data mo store c doc).2 c doc).2 ≠
      (MongoDBAdapter.write_data mo store c doc).2 ∧
     agetD (MongoDBAdapter.write_data (MongoDBAdapter.write_data mo store c doc).1
        (MongoDBAdapter.write_data mo store c doc).2 c doc).2 c =
       agetD store c ++ [doc, doc]) := by
  refine ⟨?_, ?_, ?_⟩
  · intro r1 r2 h1 h2
    simp only [S3Adapter.write_data, pyEncodeUtf8, Except.ok.injEq] at h1 h2
    subst h1
    subst h2
    simp [s3PutBytes, aupsert_idem]
  · intro hd r1 r2 h1 h2
    rw [mysql_write_run my s t d hd] at h1
    simp only [Option.some.injEq] at h1
    subst h1
    rw [mysql_write_run _ _ t d hd] at h2
    simp only [Option.some.injEq] at h2
    subst h2
    have hag : agetD (aappendOne (aappendOne s.working t.data d) t.data d) t.data =
        agetD s.working t.data ++ [d, d] := by
      rw [agetD_aappendOne, agetD_aappendOne, List.append_assoc]
      rfl
    refine ⟨?_, hag⟩
    intro heq
    have hw : aappendOne (aappendOne s.working t.data d) t.data d =
        aappendOne s.working t.data d :=
      congrArg MySQLSession.working heq
    have := congrArg List.length (hw ▸ hag)
    rw [agetD_aappendOne] at this
    simp at this
  · have hag : agetD (aappendOne (aappendOne store c doc) c doc) c =
        agetD store c ++ [doc, doc] := by
      rw [agetD_aappendOne, agetD_aappendOne, List.append_assoc]
      rfl
    refine ⟨?_, hag⟩
    intro heq
    simp only [MongoDBAdapter.write_data, mongoInsertOne] at heq
    have := congrArg List.length (heq ▸ hag)
    rw [agetD_aappendOne] at this
    simp at this

theorem claim_C4_write_idempotence_witness :
    s3PutBytes (s3PutBytes [] "k" (utf8Encode "v")) "k" (utf8Encode "v") =
      s3PutBytes [] "k" (utf8Encode "v") ∧
    (⟨aappendOne (aappendOne [] "t".data [1, 2, 3]) "t".data [1, 2, 3],
        aappendOne (aappendOne [] "t".data [1, 2, 3]) "t".data [1, 2, 3]⟩ :
      MySQLSession Nat) ≠
      ⟨aappendOne [] "t".data [1, 2, 3], aappendOne [] "t".data [1, 2, 3]⟩ := by
  have h := claim_C4_write_idempotence Nat Nat ⟨0, "bkt"⟩ [] "k" "v" ⟨0, 0⟩ ⟨[], []⟩ "t"
    [1, 2, 3] ⟨0, "db"⟩ [] "c" [("x", 1)]
  exact ⟨h.1 _ _ rfl rfl, (h.2.1 rfl _ _
    (mysql_write_run ⟨0, 0⟩ ⟨[], []⟩ "t" [1, 2, 3] rfl)
    (mysql_write_run _ _ "t" [1, 2, 3] rfl)).1⟩

theorem except_error_bind {ε β γ : Type} (e : ε) (f : β → Except ε γ) :
    (Except.error e : Except ε β) >>= f = Except.error e := rfl

theorem except_ok_bind {ε β γ : Type} (b : β) (f : β → Except ε γ) :
    (Except.ok b : Except ε β) >>= f = f b := rfl

/-- C8: on every variant and both operations, a failure raised by the
underlying store client propagates to the caller unchanged: no path of
the adapter bodies catches, translates, retries, wraps or logs it. -/
theorem claim_C8_failures_propagate_unchanged (α μ ε : Type) (e : ε) :
    (∀ (execute : List Char → Option (List α) → Except ε Unit)
        (fetchall : Unit → Except ε (List (List α))) (t : String),
      execute (MySQLAdapter.readStmt t) none = Except.error e →
      MySQLAdapter.read_dataWith execute fetchall t = Except.error e) ∧
    (∀ (execute : List Char → Option (List α) → Except ε Unit)
        (fetchall : Unit → Except ε (List (List α))) (t : String),
      execute (MySQLAdapter.readStmt t) none = Except.ok () →
      fetchall () = Except.error e →
      MySQLAdapter.read_dataWith execute fetchall t = Except.error e) ∧
    (∀ (execute : List Char → Option (List α) → Except ε Unit)
        (commit : Unit → Except ε Unit) (t : String) (d : List α),
      execute (MySQLAdapter.writeStmt t) (some d) = Except.error e →
      MySQLAdapter.write_dataWith execute commit t d = Except.error e) ∧
    (∀ (execute : List Char → Option (List α) → Except ε Unit)
        (commit : Unit → Except ε Unit) (t : String) (d : List α),
      execute (MySQLAdapter.writeStmt t) (some d) = Except.ok () →
      commit () = Except.error e →
      MySQLAdapter.write_dataWith execute commit t d = Except.error e) ∧
    (∀ (find : String → List (String × μ) → Except ε (List (MongoDoc μ))) (c : String),
      find c [] = Except.error e →
      MongoDBAdapter.read_dataWith find c = Except.error e) ∧
    (∀ (insert_one : String → MongoDoc μ → Except ε Unit) (c : String) (doc : MongoDoc μ),
      insert_one c doc = Except.error e →
      MongoDBAdapter.write_dataWith insert_one c doc = Except.error e) ∧
    (∀ (get : String → Except ε (List Nat)) (decode : List Nat → Except ε String)
        (k : String),
      get k = Except.error e →
      S3Adapter.read_dataWith get decode k = Except.error e) ∧
    (∀ (get : String → Except ε (List Nat)) (decode : List Nat → Except ε String)
        (k : String) (bs : List Nat),
      get k = Except.ok bs → decode bs = Except.error e →
      S3Adapter.read_dataWith get decode k = Except.error e) ∧
    (∀ (encode : PyVal → Except ε (List Nat)) (put : String → List Nat → Except ε Unit)
        (k : String) (d : PyVal) (bs : List Nat),
      encode d = Except.ok bs → put k bs = Except.error e →
      S3Adapter.write_dataWith encode put k d = Except.error e) := by
  refine ⟨?_, ?_, ?_, ?_, ?_, ?_, ?_, ?_, ?_⟩
  · intro execute fetchall t h
    rw [MySQLAdapter.read_dataWith, h]
    rfl
  · intro execute fetchall t h1 h2
    rw [MySQLAdapter.read_dataWith, h1, except_ok_bind, h2]
  · intro execute commit t d h
    rw [MySQLAdapter.write_dataWith, h]
    rfl
  · intro execute commit t d h1 h2
    rw [MySQLAdapter.write_dataWith, h1, except_ok_bind, h2]
  · intro find c h
    rw [MongoDBAdapter.read_dataWith, h]
  · intro insert_one c doc h
    rw [MongoDBAdapter.write_dataWith, h]
  · intro get decode k h
    rw [S3Adapter.read_dataWith, h]
    rfl
  · intro get decode k bs h1 h2
    rw [S3Adapter.read_dataWith, h1, except_ok_bind, h2]
  · intro encode put k d bs h1 h2
    rw [S3Adapter.write_dataWith, h1, except_ok_bind, h2]

theorem claim_C8_failures_propagate_unchanged_witness :
    MySQLAdapter.read_dataWith (α := Nat)
        (fun _ _ => Except.error PyErr.noSuchKey) (fun _ => Except.ok []) "t" =
      Except.error PyErr.noSuchKey ∧
    MySQLAdapter.read_dataWith (α := Nat)
        (fun _ _ => Except.ok ()) (fun _ => Except.error PyErr.noSuchKey) "t" =
      Except.error PyErr.noSuchKey ∧
    MySQLAdapter.write_dataWith
        (fun _ _ => Except.error PyErr.noSuchKey) (fun _ => Except.ok ()) "t"
        [1, 2, 3] = Except.error PyErr.noSuchKey ∧
    MySQLAdapter.write_dataWith
        (fun _ _ => Except.ok ()) (fun _ => Except.error PyErr.noSuchKey) "t"
        [1, 2, 3] = Except.error PyErr.noSuchKey ∧
    MongoDBAdapter.read_dataWith (μ := Nat)
        (fun _ _ => Except.error PyErr.noSuchKey) "c" = Except.error PyErr.noSuchKey ∧
    MongoDBAdapter.write_dataWith
        (fun _ _ => Except.error PyErr.noSuchKey) "c" [("x", (1 : Nat))] =
      Except.error PyErr.noSuchKey ∧
    S3Adapter.read_dataWith
        (fun _ => Except.error PyErr.noSuchKey) (fun _ => Except.ok "") "k" =
      Except.error PyErr.noSuchKey ∧
    S3Adapter.read_dataWith
        (fun _ => Except.ok []) (fun _ => Except.error PyErr.unicodeDecodeError) "k" =
      Except.error PyErr.unicodeDecodeError ∧
    S3Adapter.write_dataWith
        (fun _ => Except.ok []) (fun _ _ => Except.error PyErr.noSuchKey) "k"
        (PyVal.str "v") = Except.error PyErr.noSuchKey := by
  have h1 := claim_C8_failures_propagate_unchanged Nat Nat PyErr PyErr.noSuchKey
  have h2 := claim_C8_failures_propagate_unchanged Nat Nat PyErr PyErr.unicodeDecodeError
  exact ⟨h1.1 _ _ "t" rfl, h1.2.1 _ _ "t" rfl rfl, h1.2.2.1 _ _ "t" [1, 2, 3] rfl,
    h1.2.2.2.1 _ _ "t" [1, 2, 3] rfl rfl, h1.2.2.2.2.1 _ "c" rfl,
    h1.2.2.2.2.2.1 _ "c" [("x", 1)] rfl, h1.2.2.2.2.2.2.1 _ _ "k" rfl,
    h2.2.2.2.2.2.2.2.1 _ _ "k" [] rfl rfl,
    h1.2.2.2.2.2.2.2.2 _ _ "k" (PyVal.str "v") [] rfl rfl⟩

/-- C9: no operation reassigns the adapter instance's own fields: every
read_data and write_data call, and the sensor adapter's
get_temperature, returns the instance exactly as it was constructed,
with its connection/cursor, client/db, s3/bucket and fahrenheit_sensor
fields untouched. -/
theorem claim_C9_instance_state_frame (α μ : Type) [DecidableEq μ] :
    (∀ (a : MySQLAdapter) (s : MySQLSession α) (t : String) r,
      MySQLAdapter.read_data a s t = some r → r.1 = a) ∧
    (∀ (a : MySQLAdapter) (s : MySQLSession α) (t : String) (d : List α) r,
      MySQLAdapter.write_data a s t d = some r → r.1 = a) ∧
    (∀ (a : MongoDBAdapter) (store : MongoDatabase μ) (c : String),
      (MongoDBAdapter.read_data a store c).1 = a) ∧
    (∀ (a : MongoDBAdapter) (store : MongoDatabase μ) (c : String) (doc : MongoDoc μ),
      (MongoDBAdapter.write_data a store c doc).1 = a) ∧
    (∀ (a : S3Adapter) (b : S3BucketState) (k : String) r,
      S3Adapter.read_data a b k = Except.ok r → r.1 = a) ∧
    (∀ (a : S3Adapter) (b : S3BucketState) (k : String) (d : PyVal) r,
      S3Adapter.write_data a b k d = Except.ok r → r.1 = a) ∧
    (∀ a : TemperatureSensorAdapter, a.get_temperature.1 = a) := by
  refine ⟨?_, ?_, fun a store c => rfl, fun a store c doc => rfl, ?_, ?_, fun a => rfl⟩
  · intro a s t r h
    rw [mysql_read_run] at h
    simp only [Option.some.injEq] at h
    subst h
    rfl
  · intro a s t d r h
    by_cases hd : d.length = 3
    · rw [mysql_write_run a s t d hd] at h
      simp only [Option.some.injEq] at h
      subst h
      rfl
    · rw [mysql_write_badarity a s t d hd] at h
      cases h
  · intro a b k r h
    simp only [S3Adapter.read_data] at h
    cases hg : s3GetBytes b k with
    | error e =>
      simp only [hg] at h
      exact Except.noConfusion h
    | ok bs =>
      simp only [hg] at h
      cases hd : pyDecodeUtf8 bs with
      | error e =>
        simp only [hd] at h
        exact Except.noConfusion h
      | ok str =>
        simp only [hd, Except.ok.injEq] at h
        subst h
        rfl
  · intro a b k d r h
    simp only [S3Adapter.write_data] at h
    cases he : pyEncodeUtf8 d with
    | error e => rw [he] at h; cases h
    | ok bs =>
      rw [he] at h
      simp only [Except.ok.injEq] at h
      subst h
      rfl

theorem claim_C9_instance_state_frame_witness :
    ((⟨0, 0⟩, (⟨[], []⟩ : MySQLSession Nat), ([] : List (List Nat))) :
      MySQLAdapter × MySQLSession Nat × List (List Nat)).1 = (⟨0, 0⟩ : MySQLAdapter) ∧
    ((⟨0, 0⟩, (⟨aappendOne [] "t".data [1, 2, 3], aappendOne [] "t".data [1, 2, 3]⟩ :
        MySQLSession Nat)) : MySQLAdapter × MySQLSession Nat).1 = (⟨0, 0⟩ : MySQLAdapter) ∧
    ((⟨0, "bkt"⟩, [("k", utf8Encode "v")], "v") :
      S3Adapter × S3BucketState × String).1 = (⟨0, "bkt"⟩ : S3Adapter) ∧
    ((⟨0, "bkt"⟩, s3PutBytes [] "k" (utf8Encode "v")) :
      S3Adapter × S3BucketState).1 = (⟨0, "bkt"⟩ : S3Adapter) := by
  have h := claim_C9_instance_state_frame Nat Nat
  refine ⟨h.1 ⟨0, 0⟩ ⟨[], []⟩ "t" _ (mysql_read_run ⟨0, 0⟩ ⟨[], []⟩ "t"),
    h.2.1 ⟨0, 0⟩ ⟨[], []⟩ "t" [1, 2, 3] _
      (mysql_write_run ⟨0, 0⟩ ⟨[], []⟩ "t" [1, 2, 3] rfl),
    h.2.2.2.2.1 ⟨0, "bkt"⟩ [("k", utf8Encode "v")] "k" _ ?_,
    h.2.2.2.2.2.1 ⟨0, "bkt"⟩ [] "k" (PyVal.str "v") _ rfl⟩
  show S3Adapter.read_data ⟨0, "bkt"⟩ [("k", utf8Encode "v")] "k" = Except.ok _
  simp [S3Adapter.read_data, s3GetBytes, alookup, pyDecodeUtf8, utf8Decode_encode]

/-- C10: S3Adapter.write_data accepts only text-string payloads: the
unconditional data.encode call raises an attribute error for every
non-string payload before the store is contacted, and the bucket
contents the caller observes after that failure are unchanged. -/
theorem claim_C10_nonstring_write_fails (self : S3Adapter) (b : S3BucketState)
    (file_name : String) (data : PyVal) (h : ∀ s, data ≠ PyVal.str s) :
    S3Adapter.write_data self b file_name data = Except.error PyErr.attributeError ∧
    s3BucketAfterWrite self b file_name data = b := by
  have he : pyEncodeUtf8 data = Except.error PyErr.attributeError := by
    cases data with
    | str s => exact absurd rfl (h s)
    | int n => rfl
    | pybytes bs => rfl
  constructor
  · rw [S3Adapter.write_data, he]
  · rw [s3BucketAfterWrite, S3Adapter.write_data, he]

theorem claim_C10_nonstring_write_fails_witness :
    S3Adapter.write_data (⟨0, "bkt"⟩ : S3Adapter) [] "k" (PyVal.int 5) =
      Except.error PyErr.attributeError ∧
    s3BucketAfterWrite (⟨0, "bkt"⟩ : S3Adapter) [] "k" (PyVal.int 5) = [] :=
  claim_C10_nonstring_write_fails ⟨0, "bkt"⟩ [] "k" (PyVal.int 5)
    (fun s hs => by cases hs)
